import Mathlib

/-!
Shallow embedding of `src/main.py` (a Telegram relay bot around an
OpenAI-compatible chat-completion backend) and proofs about its
session store, style accumulator, retry wrapper and error handling.

Python strings are modelled as Lean `String` values; the handful of
string primitives the program uses (`strip`, `lower`, `startswith`,
substring membership with `in`, slicing `[:n]`) are modelled over the
underlying character list so that every definition evaluates inside
the kernel.  Telegram/network side effects (typing indicators, actual
message delivery) are outside the embedding; the text handed to
`safe_reply` is recorded as the reply of a handler run.
-/

namespace TgBot

/-- Python `str.strip()` (used as `(msg.text or "").strip()` on line 183 and
`(resp...content or "").strip()` on line 139): drop whitespace at both ends. -/
def pyStrip (s : String) : String :=
  String.mk (((s.data.dropWhile Char.isWhitespace).reverse.dropWhile Char.isWhitespace).reverse)

/-- ASCII case lowering of one character, modelling Python `str.lower()` as it
is used on exception text (line 224); only ASCII letters matter for the
`"rate"` substring test performed there. -/
def lowerChar (c : Char) : Char :=
  if 'A' ≤ c ∧ c ≤ 'Z' then Char.ofNat (c.toNat + 32) else c

/-- Python `str.lower()` (line 224), modelled on ASCII letters. -/
def pyLower (s : String) : String := String.mk (s.data.map lowerChar)

/-- Python `needle in hay` on strings (line 224): substring membership. -/
def strContains (hay needle : String) : Bool := decide (needle.data <:+: hay.data)

/-- Python `text.startswith "/"` (line 210): first character is a slash. -/
def startsWithSlash (s : String) : Bool :=
  match s.data with
  | [] => false
  | c :: _ => c = '/'

/-- The last `n` elements of a list, in order: Python `list(d)[-n:]`. -/
def takeLast (n : Nat) (l : List α) : List α := l.drop (l.length - n)

/-- One `append` on a `collections.deque(maxlen := cap)` (lines 65 and 68):
the new element goes to the right and only the most recent `cap` elements
are kept, evicting the oldest first. -/
def dqAppend (cap : Nat) (l : List α) (x : α) : List α := takeLast cap (l ++ [x])

/-- One chat message dict with its role and content fields. -/
structure Msg where
  role : String
  content : String
deriving DecidableEq

/-- The environment configuration read at the top of `main.py`:
`BOT_TOKEN` (line 22), `OWNER_ID` (line 25, `int(os.getenv("OWNER_ID", "0"))`
so an unset variable reads as `0`), and `LLM_API_KEY` (line 32, already the
fallback-merged value of `LLM_API_KEY` / `OPENAI_API_KEY`). -/
structure Config where
  BOT_TOKEN : Option String
  OWNER_ID : Int
  LLM_API_KEY : Option String

/-- Embeds `thread_key` (lines 91-94): `(chat_id, get_thread_id(update) or 0)`.
`tid = none` models a message without `message_thread_id`; Python `x or 0`
maps both `None` and `0` to `0`, which is exactly `Option.getD 0`.
The key does NOT contain the sender. -/
def thread_key (chat_id : Int) (tid : Option Int) : Int × Int :=
  (chat_id, tid.getD 0)

/-- The process-wide mutable state: `thread_memory` (line 65, a defaultdict
of `deque(maxlen := 20)`, modelled as a total map defaulting to `[]`) and
`owner_style_samples` (line 68, a `deque(maxlen := 60)`). -/
structure BotState where
  thread_memory : Int × Int → List Msg
  owner_style_samples : List String

/-- The state at process start: both stores empty. -/
def initState : BotState := ⟨fun _ => [], []⟩

/-- Fallback persona used when no owner samples exist (lines 110-114). -/
def default_persona : String :=
  "Ты отвечаешь на русском. Стиль: живо, коротко, по делу, без пафоса. " ++
  "Если уместно — лёгкий юмор. Не выдумывай факты."

/-- The fixed rule text prepended to the style examples (lines 117-125). -/
def style_rules_text : String :=
  "Ты — помощник, который ПИШЕТ ТОЧНО В СТИЛЕ владельца бота.\n" ++
  "Правила:\n" ++
  "1) Копируй манеру: длину фраз, сленг, эмодзи, пунктуацию.\n" ++
  "2) Не говори, что ты копируешь стиль. Просто пиши так.\n" ++
  "3) Не перенимай стиль других пользователей, только владельца.\n" ++
  "4) Отвечай на русском, кратко и по делу.\n\n" ++
  "Примеры сообщений владельца (для стиля):\n"

/-- Embeds `build_style_system_prompt` (lines 108-126): with no samples, the default
persona; otherwise the rule text followed by the last 25 samples rendered
as `"- "` bullet lines, and a trailing newline. -/
def build_style_system_prompt (samples : List String) : String :=
  if samples.isEmpty then default_persona
  else
    style_rules_text ++
      String.intercalate "\n" ((takeLast 25 samples).map (fun t => "- " ++ t)) ++ "\n"

/-- Substituted result for an empty or whitespace-only answer (line 140). -/
def empty_answer_reply : String := "Пустой ответ. Попробуй иначе сформулировать."

/-- The retry loop of `call_llm` (lines 129-147), from a given `attempt`
index with `left` retries remaining (`left = retries - attempt`, so the
Python guard `attempt < retries` is `left > 0`).  The network is
abstracted as `llm msgs attempt`, one result per attempt; the pair's
second component counts the attempts actually made.  On success the
content is stripped and an empty answer replaced by
`empty_answer_reply`; on an exception the loop retries while retries
remain, otherwise re-raises the last exception. -/
def call_llm_go (llm : List Msg → Nat → Except String String) (msgs : List Msg) :
    Nat → Nat → Except String String × Nat
  | attempt, left =>
    match llm msgs attempt with
    | Except.ok content =>
        let answer := pyStrip content
        (Except.ok (if answer.data.isEmpty then empty_answer_reply else answer), attempt + 1)
    | Except.error e =>
        match left with
        | 0 => (Except.error e, attempt + 1)
        | l + 1 => call_llm_go llm msgs (attempt + 1) l

/-- Entry point `call_llm(messages, retries)` (line 129): the loop starts at attempt 0
with all `retries` still available. -/
def call_llm_run (llm : List Msg → Nat → Except String String) (msgs : List Msg)
    (retries : Nat) : Except String String × Nat :=
  call_llm_go llm msgs 0 retries

/-- The style capture step of `handle_text` (lines 208-211): the text is
appended to the owner style deque iff the sender is `OWNER_ID` and the
text does not start with `/`. -/
def style_samples_after (ownerId uid : Int) (text : String) (samples : List String) :
    List String :=
  if uid = ownerId then
    if startsWithSlash text then samples else dqAppend 60 samples text
  else samples

/-- The request payload built by `handle_text` (lines 213-217): the system
prompt (rendered from the style samples as updated by this very message),
then the whole thread memory, then the new user message. -/
def messages_for (cfg : Config) (uid chat_id : Int) (tid : Option Int) (text : String)
    (st : BotState) : List Msg :=
  Msg.mk "system"
      (build_style_system_prompt (style_samples_after cfg.OWNER_ID uid text st.owner_style_samples))
    :: (st.thread_memory (thread_key chat_id tid) ++ [Msg.mk "user" text])

/-- Reply sent when the exception text looks like a rate limit (line 225). -/
def rate_limit_reply : String := "Лимит запросов 😵‍💫 Подожди 20–60 сек и повтори."

/-- The `except` branch of `handle_text` (lines 221-229): a reply is chosen
purely by substring tests on the exception text `e`; every other exception
is echoed back inside the reply. -/
def error_reply (e : String) : String :=
  if strContains e "429" || strContains (pyLower e) "rate" then rate_limit_reply
  else "Ошибка ИИ: " ++ e

/-- The observable outcome of one `handle_text` invocation: the state after
the handler, the text handed to `safe_reply` (`none` when the handler
returns without replying), and how many backend attempts were made. -/
structure HandleResult where
  state : BotState
  reply : Option String
  llm_attempts : Nat

/-- Embeds `handle_text` (lines 181-235).  Strips the text and silently returns if
empty; replies with a configuration error if `BOT_TOKEN`, `LLM_API_KEY` is
missing or `OWNER_ID` is 0; otherwise records an owner style sample,
builds the payload, calls the backend with 2 retries, and either converts
the exception to a reply (memory untouched) or appends the user/assistant
pair to this thread's memory and replies with the answer. -/
def handle_text (cfg : Config) (llm : List Msg → Nat → Except String String)
    (uid chat_id : Int) (tid : Option Int) (raw : String) (st : BotState) : HandleResult :=
  let text := pyStrip raw
  if text.data.isEmpty then ⟨st, none, 0⟩
  else if cfg.BOT_TOKEN.isNone then
    ⟨st, some "Ошибка: BOT_TOKEN не задан в Railway Variables.", 0⟩
  else if cfg.LLM_API_KEY.isNone then
    ⟨st, some "Ошибка: LLM_API_KEY (или OPENAI_API_KEY) не задан в Railway Variables.", 0⟩
  else if cfg.OWNER_ID = 0 then
    ⟨st, some "Ошибка: OWNER_ID не задан. Добавь OWNER_ID в Railway Variables (твой Telegram user_id).", 0⟩
  else
    let key := thread_key chat_id tid
    let samples := style_samples_after cfg.OWNER_ID uid text st.owner_style_samples
    match call_llm_run llm (messages_for cfg uid chat_id tid text st) 2 with
    | (Except.error e, n) => ⟨⟨st.thread_memory, samples⟩, some (error_reply e), n⟩
    | (Except.ok answer, n) =>
        let mem := dqAppend 20 (dqAppend 20 (st.thread_memory key) (Msg.mk "user" text))
          (Msg.mk "assistant" answer)
        ⟨⟨fun k => if k = key then mem else st.thread_memory k, samples⟩, some answer, n⟩

/-- The transport-side truncation in `safe_reply` (lines 103-105): Telegram
receives `text[:4000]`, the first 4000 characters. -/
def safe_reply_text (t : String) : String := String.mk (t.data.take 4000)

/-- The `/style_reset` handler (lines 172-178) on the style deque: refused
with `"Неа 🙂"` when an owner is configured and the caller is not the
owner; otherwise the deque is cleared.  Returns (new samples, reply). -/
def style_reset_run (ownerId uid : Int) (samples : List String) : List String × String :=
  if ownerId ≠ 0 ∧ uid ≠ ownerId then (samples, "Неа 🙂")
  else ([], "Стиль-память очищена ✅")

/-- Embeds `main` (lines 238-240) before any polling starts: a missing `BOT_TOKEN`
raises `RuntimeError` and nothing else is checked at startup. -/
def main_startup (cfg : Config) : Except String Unit :=
  if cfg.BOT_TOKEN.isNone then Except.error "BOT_TOKEN env var is missing"
  else Except.ok ()

/-- One inbound event the bot dispatches on: a plain text message (with the
per-attempt backend behaviour it would see), a `/style_reset` command, or
a `/reset` command for one thread. -/
inductive BotEvent where
  | textMsg (uid chat_id : Int) (tid : Option Int) (raw : String)
      (llm : List Msg → Nat → Except String String)
  | styleResetCmd (uid : Int)
  | resetCmd (chat_id : Int) (tid : Option Int)

/-- State transition for one event: `handle_text` for plain text,
`style_reset` (lines 172-178) and `reset` (lines 166-169) for the
commands. -/
def bot_step (cfg : Config) (st : BotState) : BotEvent → BotState
  | BotEvent.textMsg uid chat_id tid raw llm => (handle_text cfg llm uid chat_id tid raw st).state
  | BotEvent.styleResetCmd uid =>
      ⟨st.thread_memory, (style_reset_run cfg.OWNER_ID uid st.owner_style_samples).1⟩
  | BotEvent.resetCmd chat_id tid =>
      ⟨fun k => if k = thread_key chat_id tid then [] else st.thread_memory k,
        st.owner_style_samples⟩

/-- A whole run of the bot from process start over a list of events. -/
def run_bot (cfg : Config) (events : List BotEvent) : BotState :=
  events.foldl (bot_step cfg) initState

/-- Modelled from the spec: the Admission Gate of §4.4 is absent from
`src/main.py` (no throttle state or cooldown check exists anywhere in the
file); `try_acquire` follows the spec words: read the last-accepted
timestamp (epoch start, `0`, when absent — the map is total with that
default), accept and store `now` iff `now - last ≥ cooldown`, otherwise
reject leaving the state unchanged. -/
def try_acquire {K : Type} [DecidableEq K] (cooldown : Int) (ts : K → Int) (key : K) (now : Int) :
    Bool × (K → Int) :=
  if cooldown ≤ now - ts key then (true, fun k => if k = key then now else ts k)
  else (false, ts)

/-- Modelled from the spec: Orchestrator step (2) of §4.7 — the gate check —
is also absent from `src/main.py`.  On acceptance the orchestrator
proceeds to exactly one generation call; on rejection it stops with the
wait notice and performs zero backend calls.  The `Nat` component counts
backend calls. -/
def admit_and_call {K : Type} [DecidableEq K] (cooldown : Int) (ts : K → Int) (key : K) (now : Int) :
    Bool × (K → Int) × Nat :=
  match try_acquire cooldown ts key now with
  | (true, ts2) => (true, ts2, 1)
  | (false, ts2) => (false, ts2, 0)

/-! ### Helper lemmas about `takeLast` and `dqAppend` -/

theorem takeLast_length {α : Type} (n : Nat) (l : List α) :
    (takeLast n l).length = min n l.length := by
  simp only [takeLast, List.length_drop]
  omega

theorem takeLast_of_le {α : Type} {n : Nat} {l : List α} (h : l.length ≤ n) :
    takeLast n l = l := by
  simp [takeLast, Nat.sub_eq_zero_of_le h]

theorem takeLast_append_absorb {α : Type} (n : Nat) (m xs : List α) :
    takeLast n (takeLast n m ++ xs) = takeLast n (m ++ xs) := by
  by_cases h : m.length ≤ n
  · rw [takeLast_of_le h]
  · push_neg at h
    have hs : (m.drop (m.length - n)).length = n := by
      rw [List.length_drop]; omega
    have htake : (m.take (m.length - n)).length = m.length - n := by
      rw [List.length_take]; omega
    calc takeLast n (takeLast n m ++ xs)
        = (m.drop (m.length - n) ++ xs).drop
            ((m.drop (m.length - n) ++ xs).length - n) := rfl
      _ = (m.drop (m.length - n) ++ xs).drop xs.length := by
            rw [List.length_append, hs]; congr 1; omega
      _ = (m.take (m.length - n) ++ (m.drop (m.length - n) ++ xs)).drop
            ((m.take (m.length - n)).length + xs.length) := by
            rw [List.drop_append]
      _ = (m ++ xs).drop (m.length + xs.length - n) := by
            rw [htake, ← List.append_assoc, List.take_append_drop]
            congr 1
            omega
      _ = takeLast n (m ++ xs) := by
            rw [takeLast, List.length_append]

theorem foldl_dqAppend {α : Type} (n : Nat) :
    ∀ (xs l : List α), l.length ≤ n →
      xs.foldl (dqAppend n) l = takeLast n (l ++ xs)
  | [], l, h => by
      rw [List.foldl_nil, List.append_nil, takeLast_of_le h]
  | x :: xs, l, h => by
      rw [List.foldl_cons]
      have hlen : (dqAppend n l x).length ≤ n := by
        rw [dqAppend, takeLast_length]
        exact Nat.min_le_left _ _
      rw [foldl_dqAppend n xs (dqAppend n l x) hlen]
      show takeLast n (takeLast n (l ++ [x]) ++ xs) = takeLast n (l ++ x :: xs)
      rw [takeLast_append_absorb, List.append_assoc]
      rfl

theorem dqAppend_mem {α : Type} {cap : Nat} {l : List α} {x s : α}
    (h : s ∈ dqAppend cap l x) : s ∈ l ∨ s = x := by
  have hsub : s ∈ l ++ [x] := List.drop_subset _ _ h
  rcases List.mem_append.mp hsub with h1 | h1
  · exact Or.inl h1
  · simp only [List.mem_singleton] at h1
    exact Or.inr h1

/-! ### Claim theorems -/

/-- Claim C6: for every capacity N ≥ 1 and every k ≥ 0, appending N+k items to a
Bounded Ring Buffer (a `deque(maxlen := N)`, starting empty) leaves exactly
min(N, N+k) items, and those are exactly the most recently appended
min(N, N+k) items in their original append order (the items after the
first k, i.e. the oldest were evicted first). -/
theorem ring_buffer_keeps_last {α : Type} (N k : Nat) (xs : List α)
    (_hN : 1 ≤ N) (hlen : xs.length = N + k) :
    (xs.foldl (dqAppend N) []).length = min N (N + k)
    ∧ xs.foldl (dqAppend N) [] = xs.drop k := by
  have h0 : ([] : List α).length ≤ N := by simp
  rw [foldl_dqAppend N xs [] h0, List.nil_append]
  constructor
  · rw [takeLast_length, hlen]
  · rw [takeLast, hlen]
    congr 1
    omega

/-- Witness for C6 at N = 2, k = 1, xs = [10, 20, 30]. -/
theorem ring_buffer_keeps_last_witness :
    (1 ≤ 2 ∧ ([10, 20, 30] : List Nat).length = 2 + 1)
    ∧ (([10, 20, 30] : List Nat).foldl (dqAppend 2) []).length = min 2 (2 + 1)
    ∧ ([10, 20, 30] : List Nat).foldl (dqAppend 2) [] = [10, 20, 30].drop 1 :=
  ⟨⟨by decide, by decide⟩, ring_buffer_keeps_last 2 1 [10, 20, 30] (by decide) (by decide)⟩

/-- Claim C9: when `OWNER_ID` is 0 (unset), a `/style_reset` from any user clears
the whole style corpus; when `OWNER_ID` is nonzero, a `/style_reset` from
any other user leaves the corpus unchanged and replies with the refusal,
while one from the owner clears the corpus. -/
theorem style_reset_cases (ownerId uid : Int) (samples : List String) :
    (ownerId = 0 → style_reset_run ownerId uid samples = ([], "Стиль-память очищена ✅"))
    ∧ (ownerId ≠ 0 → uid ≠ ownerId →
        style_reset_run ownerId uid samples = (samples, "Неа 🙂"))
    ∧ (uid = ownerId → style_reset_run ownerId uid samples = ([], "Стиль-память очищена ✅")) := by
  refine ⟨?_, ?_, ?_⟩
  · intro h
    simp [style_reset_run, h]
  · intro h1 h2
    simp [style_reset_run, h1, h2]
  · intro h
    simp [style_reset_run, h]

/-- Witness for C9 at owner 0 / owner 7 with caller 5 / owner 7 as caller. -/
theorem style_reset_cases_witness :
    style_reset_run 0 5 ["x"] = ([], "Стиль-память очищена ✅")
    ∧ style_reset_run 7 5 ["x"] = (["x"], "Неа 🙂")
    ∧ style_reset_run 7 7 ["x"] = ([], "Стиль-память очищена ✅") :=
  ⟨(style_reset_cases 0 5 ["x"]).1 rfl,
   (style_reset_cases 7 5 ["x"]).2.1 (by decide) (by decide),
   (style_reset_cases 7 7 ["x"]).2.2 rfl⟩

/-- Claim C1: `try_acquire` returns true and stores `now` for the key iff
`now - last ≥ cooldown`, otherwise returns false leaving the state
unchanged; two calls for the same key at times t and t+ε with 0 ≤ ε < C,
from a state whose gate is open at t, yield exactly one true and one false
in either interleaving order; and on the false path the orchestrator makes
zero backend calls. -/
theorem try_acquire_spec {K : Type} [DecidableEq K] (C : Int) (ts : K → Int) (key : K)
    (now t ε : Int) (hC : 0 < C) (hε : 0 ≤ ε) (hεC : ε < C) (hopen : C ≤ t - ts key) :
    (((try_acquire C ts key now).1 = true ∧ (try_acquire C ts key now).2 key = now) ↔
      C ≤ now - ts key)
    ∧ ((try_acquire C ts key now).1 = false → (try_acquire C ts key now).2 = ts)
    ∧ ((try_acquire C ts key t).1 = true ∧
        (try_acquire C ((try_acquire C ts key t).2) key (t + ε)).1 = false)
    ∧ ((try_acquire C ts key (t + ε)).1 = true ∧
        (try_acquire C ((try_acquire C ts key (t + ε)).2) key t).1 = false)
    ∧ ((try_acquire C ts key now).1 = false → (admit_and_call C ts key now).2.2 = 0) := by
  refine ⟨?_, ?_, ?_, ?_, ?_⟩
  · by_cases hnow : C ≤ now - ts key
    · simp [try_acquire, hnow]
    · simp [try_acquire, hnow]
  · intro hfalse
    by_cases hnow : C ≤ now - ts key
    · simp [try_acquire, hnow] at hfalse
    · simp [try_acquire, hnow]
  · have e1 : try_acquire C ts key t = (true, fun k => if k = key then t else ts k) := by
      simp [try_acquire, hopen]
    rw [e1]
    refine ⟨rfl, ?_⟩
    have hcond : ¬ C ≤ ε := by omega
    simp [try_acquire, hcond]
  · have hopen2 : C ≤ (t + ε) - ts key := by omega
    have e1 : try_acquire C ts key (t + ε)
        = (true, fun k => if k = key then t + ε else ts k) := by
      simp [try_acquire, hopen2]
    rw [e1]
    refine ⟨rfl, ?_⟩
    have hcond : ¬ C ≤ -ε := by omega
    simp [try_acquire, hcond]
  · intro hfalse
    by_cases hnow : C ≤ now - ts key
    · simp [try_acquire, hnow] at hfalse
    · simp [admit_and_call, try_acquire, hnow]

/-- Witness for C1 at C = 3, empty throttle state, t = 5, ε = 1. -/
theorem try_acquire_spec_witness :
    ((0 : Int) < 3 ∧ (0 : Int) ≤ 1 ∧ (1 : Int) < 3 ∧ (3 : Int) ≤ 5 - 0)
    ∧ ((try_acquire 3 (fun _ : Int => 0) 0 5).1 = true ∧
        (try_acquire 3 ((try_acquire 3 (fun _ : Int => 0) 0 5).2) 0 (5 + 1)).1 = false) :=
  ⟨⟨by decide, by decide, by decide, by decide⟩,
   (try_acquire_spec 3 (fun _ : Int => 0) 0 0 5 1 (by decide) (by decide) (by decide)
      (by decide)).2.2.1⟩

theorem call_llm_go_all_fail (llm : List Msg → Nat → Except String String) (msgs : List Msg)
    (herr : ∀ i, ∃ e, llm msgs i = Except.error e) :
    ∀ (left attempt : Nat),
      (∃ e, (call_llm_go llm msgs attempt left).1 = Except.error e)
      ∧ (call_llm_go llm msgs attempt left).2 = attempt + left + 1 := by
  intro left
  induction left with
  | zero =>
      intro attempt
      obtain ⟨e, he⟩ := herr attempt
      rw [call_llm_go, he]
      exact ⟨⟨e, rfl⟩, rfl⟩
  | succ l ih =>
      intro attempt
      obtain ⟨e, he⟩ := herr attempt
      rw [call_llm_go, he]
      obtain ⟨h1, h2⟩ := ih (attempt + 1)
      refine ⟨h1, ?_⟩
      rw [h2]
      omega

/-- Claim C3 counterexample: a call whose every attempt raises a quota-exhausted
exception is retried exactly like a transient one — with `retries = 2` the
loop of `call_llm` makes 3 attempts, not the 1 attempt the claim requires
for `QuotaExhausted`, because the loop never classifies the exception. -/
theorem call_llm_quota_retried_cex :
    call_llm_run (fun _ _ => Except.error "You exceeded your current quota.") [] 2
      = (Except.error "You exceeded your current quota.", 3)
    ∧ (call_llm_run (fun _ _ => Except.error "You exceeded your current quota.") [] 2).2 ≠ 1 :=
  ⟨rfl, by decide⟩

/-- Claim C3 amended: `call_llm` performs no error classification at all — every
exception, quota-exhausted and fatal ones included, is retried until the
retries are exhausted, so any call whose attempts all raise terminates as
a failure after exactly `retries + 1` attempts (3 when `retries = 2`). -/
theorem call_llm_uniform_retry (llm : List Msg → Nat → Except String String)
    (msgs : List Msg) (retries : Nat)
    (herr : ∀ i, ∃ e, llm msgs i = Except.error e) :
    (∃ e, (call_llm_run llm msgs retries).1 = Except.error e)
    ∧ (call_llm_run llm msgs retries).2 = retries + 1 := by
  obtain ⟨h1, h2⟩ := call_llm_go_all_fail llm msgs herr retries 0
  refine ⟨h1, ?_⟩
  rw [call_llm_run, h2]
  omega

/-- Witness for C3's amended theorem: an always-failing backend with
`retries = 2` makes exactly 3 attempts. -/
theorem call_llm_uniform_retry_witness :
    (∃ e, (call_llm_run (fun _ _ => Except.error "boom") [] 2).1 = Except.error e)
    ∧ (call_llm_run (fun _ _ => Except.error "boom") [] 2).2 = 2 + 1 :=
  call_llm_uniform_retry (fun _ _ => Except.error "boom") [] 2 (fun _ => ⟨"boom", rfl⟩)

/-! ### Unfolding lemmas for `handle_text` -/

theorem handle_text_error_case (cfg : Config) (llm : List Msg → Nat → Except String String)
    (uid chat_id : Int) (tid : Option Int) (raw : String) (st : BotState) (e : String) (n : Nat)
    (h1 : (pyStrip raw).data.isEmpty = false) (h2 : cfg.BOT_TOKEN.isNone = false)
    (h3 : cfg.LLM_API_KEY.isNone = false) (h4 : cfg.OWNER_ID ≠ 0)
    (hrun : call_llm_run llm (messages_for cfg uid chat_id tid (pyStrip raw) st) 2
      = (Except.error e, n)) :
    handle_text cfg llm uid chat_id tid raw st
      = ⟨⟨st.thread_memory,
          style_samples_after cfg.OWNER_ID uid (pyStrip raw) st.owner_style_samples⟩,
         some (error_reply e), n⟩ := by
  simp only [handle_text, h1, h2, h3, Bool.false_eq_true, if_false, if_neg h4]
  rw [hrun]

theorem handle_text_ok_case (cfg : Config) (llm : List Msg → Nat → Except String String)
    (uid chat_id : Int) (tid : Option Int) (raw : String) (st : BotState) (a : String) (n : Nat)
    (h1 : (pyStrip raw).data.isEmpty = false) (h2 : cfg.BOT_TOKEN.isNone = false)
    (h3 : cfg.LLM_API_KEY.isNone = false) (h4 : cfg.OWNER_ID ≠ 0)
    (hrun : call_llm_run llm (messages_for cfg uid chat_id tid (pyStrip raw) st) 2
      = (Except.ok a, n)) :
    handle_text cfg llm uid chat_id tid raw st
      = ⟨⟨fun k => if k = thread_key chat_id tid then
            dqAppend 20 (dqAppend 20 (st.thread_memory (thread_key chat_id tid))
              (Msg.mk "user" (pyStrip raw))) (Msg.mk "assistant" a)
          else st.thread_memory k,
          style_samples_after cfg.OWNER_ID uid (pyStrip raw) st.owner_style_samples⟩,
         some a, n⟩ := by
  simp only [handle_text, h1, h2, h3, Bool.false_eq_true, if_false, if_neg h4]
  rw [hrun]

theorem handle_text_early_state (cfg : Config) (llm : List Msg → Nat → Except String String)
    (uid chat_id : Int) (tid : Option Int) (raw : String) (st : BotState)
    (h : (pyStrip raw).data.isEmpty = true ∨ cfg.BOT_TOKEN.isNone = true
      ∨ cfg.LLM_API_KEY.isNone = true ∨ cfg.OWNER_ID = 0) :
    (handle_text cfg llm uid chat_id tid raw st).state = st := by
  by_cases h1 : (pyStrip raw).data.isEmpty
  · simp [handle_text, h1]
  · rw [Bool.not_eq_true] at h1
    by_cases h2 : cfg.BOT_TOKEN.isNone
    · simp [handle_text, h1, h2]
    · rw [Bool.not_eq_true] at h2
      by_cases h3 : cfg.LLM_API_KEY.isNone
      · simp [handle_text, h1, h2, h3]
      · rw [Bool.not_eq_true] at h3
        by_cases h4 : cfg.OWNER_ID = 0
        · simp [handle_text, h1, h2, h3, h4]
        · rcases h with h | h | h | h
          · rw [h1] at h; exact absurd h (by decide)
          · rw [h2] at h; exact absurd h (by decide)
          · rw [h3] at h; exact absurd h (by decide)
          · exact absurd h h4

/-- Claim C5: session updates are atomic as a pair: on a failing generation call
(every error path, including retries exhausted, as well as every
early-return path) the thread memory is left completely unchanged for
every key — no user-only entry persists — and on a successful call
exactly the user utterance followed by the assistant utterance are
appended (with ring-buffer eviction) to this conversation's buffer, in
that order, every other buffer unchanged. -/
theorem session_pair_atomicity (cfg : Config) (llm : List Msg → Nat → Except String String)
    (uid chat_id : Int) (tid : Option Int) (raw : String) (st : BotState) :
    (∀ e n, call_llm_run llm (messages_for cfg uid chat_id tid (pyStrip raw) st) 2
        = (Except.error e, n) →
      (handle_text cfg llm uid chat_id tid raw st).state.thread_memory = st.thread_memory)
    ∧ (∀ a n, (pyStrip raw).data.isEmpty = false → cfg.BOT_TOKEN.isNone = false →
        cfg.LLM_API_KEY.isNone = false → cfg.OWNER_ID ≠ 0 →
        call_llm_run llm (messages_for cfg uid chat_id tid (pyStrip raw) st) 2
          = (Except.ok a, n) →
        (handle_text cfg llm uid chat_id tid raw st).state.thread_memory (thread_key chat_id tid)
          = dqAppend 20 (dqAppend 20 (st.thread_memory (thread_key chat_id tid))
              (Msg.mk "user" (pyStrip raw))) (Msg.mk "assistant" a)
        ∧ ∀ k, k ≠ thread_key chat_id tid →
            (handle_text cfg llm uid chat_id tid raw st).state.thread_memory k
              = st.thread_memory k) := by
  constructor
  · intro e n hrun
    by_cases h1 : (pyStrip raw).data.isEmpty
    · rw [handle_text_early_state cfg llm uid chat_id tid raw st (Or.inl h1)]
    · rw [Bool.not_eq_true] at h1
      by_cases h2 : cfg.BOT_TOKEN.isNone
      · rw [handle_text_early_state cfg llm uid chat_id tid raw st (Or.inr (Or.inl h2))]
      · rw [Bool.not_eq_true] at h2
        by_cases h3 : cfg.LLM_API_KEY.isNone
        · rw [handle_text_early_state cfg llm uid chat_id tid raw st
            (Or.inr (Or.inr (Or.inl h3)))]
        · rw [Bool.not_eq_true] at h3
          by_cases h4 : cfg.OWNER_ID = 0
          · rw [handle_text_early_state cfg llm uid chat_id tid raw st
              (Or.inr (Or.inr (Or.inr h4)))]
          · rw [handle_text_error_case cfg llm uid chat_id tid raw st e n h1 h2 h3 h4 hrun]
  · intro a n h1 h2 h3 h4 hrun
    rw [handle_text_ok_case cfg llm uid chat_id tid raw st a n h1 h2 h3 h4 hrun]
    constructor
    · simp
    · intro k hk
      simp [hk]

/-- Witness for C5: a failing backend leaves the (empty) memory unchanged;
a successful one appends the user/assistant pair for chat 5. -/
theorem session_pair_atomicity_witness :
    ((handle_text (Config.mk (some "t") 7 (some "k")) (fun _ _ => Except.error "boom")
        1 5 none "hi" initState).state.thread_memory = initState.thread_memory)
    ∧ ((handle_text (Config.mk (some "t") 7 (some "k")) (fun _ _ => Except.ok "привет")
        1 5 none "hi" initState).state.thread_memory (thread_key 5 none)
        = dqAppend 20 (dqAppend 20 (initState.thread_memory (thread_key 5 none))
            (Msg.mk "user" (pyStrip "hi"))) (Msg.mk "assistant" "привет")) :=
  ⟨(session_pair_atomicity (Config.mk (some "t") 7 (some "k"))
      (fun _ _ => Except.error "boom") 1 5 none "hi" initState).1 "boom" 3 rfl,
   ((session_pair_atomicity (Config.mk (some "t") 7 (some "k"))
      (fun _ _ => Except.ok "привет") 1 5 none "hi" initState).2 "привет" 1
      rfl rfl rfl (by decide) rfl).1⟩

/-- Claim C10: after retries are exhausted the orchestrator classifies the
failure purely by substring match on the exception text: if it contains
"429", or contains "rate" case-insensitively, the user gets the
rate-limit notice; every other exception produces a reply embedding the
raw exception text itself. -/
theorem error_reply_classification (cfg : Config) (llm : List Msg → Nat → Except String String)
    (uid chat_id : Int) (tid : Option Int) (raw : String) (st : BotState) (e : String) (n : Nat)
    (h1 : (pyStrip raw).data.isEmpty = false) (h2 : cfg.BOT_TOKEN.isNone = false)
    (h3 : cfg.LLM_API_KEY.isNone = false) (h4 : cfg.OWNER_ID ≠ 0)
    (hrun : call_llm_run llm (messages_for cfg uid chat_id tid (pyStrip raw) st) 2
      = (Except.error e, n)) :
    ((strContains e "429" = true ∨ strContains (pyLower e) "rate" = true) →
      (handle_text cfg llm uid chat_id tid raw st).reply = some rate_limit_reply)
    ∧ (strContains e "429" = false → strContains (pyLower e) "rate" = false →
      (handle_text cfg llm uid chat_id tid raw st).reply = some ("Ошибка ИИ: " ++ e)) := by
  rw [handle_text_error_case cfg llm uid chat_id tid raw st e n h1 h2 h3 h4 hrun]
  constructor
  · intro h
    rcases h with h | h <;> simp [error_reply, h]
  · intro ha hb
    simp [error_reply, ha, hb]

/-- Witness for C10: a 429 exception text yields the rate-limit notice, a
plain "boom" exception is echoed inside the reply. -/
theorem error_reply_classification_witness :
    ((handle_text (Config.mk (some "t") 7 (some "k"))
        (fun _ _ => Except.error "HTTP 429 Too Many Requests")
        1 5 none "hi" initState).reply = some rate_limit_reply)
    ∧ ((handle_text (Config.mk (some "t") 7 (some "k")) (fun _ _ => Except.error "boom")
        1 5 none "hi" initState).reply = some ("Ошибка ИИ: " ++ "boom")) :=
  ⟨(error_reply_classification (Config.mk (some "t") 7 (some "k"))
      (fun _ _ => Except.error "HTTP 429 Too Many Requests") 1 5 none "hi" initState
      "HTTP 429 Too Many Requests" 3 rfl rfl rfl (by decide) rfl).1 (Or.inl (by decide)),
   (error_reply_classification (Config.mk (some "t") 7 (some "k"))
      (fun _ _ => Except.error "boom") 1 5 none "hi" initState
      "boom" 3 rfl rfl rfl (by decide) rfl).2 (by decide) (by decide)⟩

/-- Claim C4 counterexample: with `BOT_TOKEN` set but the backend key
`LLM_API_KEY` absent, startup succeeds and an inbound message is still
processed — the handler produces a reply (a config-error text to the
user) rather than the system failing to start and accepting no traffic,
so a missing required configuration value is not fatal at startup. -/
theorem startup_without_api_key_cex :
    main_startup (Config.mk (some "tok") 7 none) = Except.ok ()
    ∧ (handle_text (Config.mk (some "tok") 7 none) (fun _ _ => Except.ok "привет")
        1 5 none "hi" initState).reply
      = some "Ошибка: LLM_API_KEY (или OPENAI_API_KEY) не задан в Railway Variables." :=
  ⟨rfl, by decide⟩

/-- Claim C4 amended: only a missing `BOT_TOKEN` is fatal at startup; a missing
`LLM_API_KEY` (warned about at import, line 80) does not prevent startup —
each inbound message is still processed and answered with a
configuration-error reply, with zero backend attempts and the state
untouched. -/
theorem config_error_behaviour (cfg : Config) (llm : List Msg → Nat → Except String String)
    (uid chat_id : Int) (tid : Option Int) (raw : String) (st : BotState)
    (hraw : (pyStrip raw).data.isEmpty = false) :
    (cfg.BOT_TOKEN = none → main_startup cfg = Except.error "BOT_TOKEN env var is missing")
    ∧ (cfg.BOT_TOKEN ≠ none → main_startup cfg = Except.ok ())
    ∧ (cfg.BOT_TOKEN ≠ none → cfg.LLM_API_KEY = none →
        handle_text cfg llm uid chat_id tid raw st
          = ⟨st, some "Ошибка: LLM_API_KEY (или OPENAI_API_KEY) не задан в Railway Variables.",
             0⟩) := by
  refine ⟨?_, ?_, ?_⟩
  · intro h
    simp [main_startup, h]
  · intro h
    simp [main_startup, Option.isNone_iff_eq_none, h]
  · intro hb hk
    have hb2 : cfg.BOT_TOKEN.isNone = false := by
      rcases hcase : cfg.BOT_TOKEN with _ | v
      · exact absurd hcase hb
      · rfl
    have hk2 : cfg.LLM_API_KEY.isNone = true := by rw [hk]; rfl
    simp [handle_text, hraw, hb2, hk2]

/-- Witness for C4's amended theorem at concrete configurations. -/
theorem config_error_behaviour_witness :
    main_startup (Config.mk none 7 (some "k")) = Except.error "BOT_TOKEN env var is missing"
    ∧ main_startup (Config.mk (some "tok") 7 none) = Except.ok ()
    ∧ handle_text (Config.mk (some "tok") 7 none) (fun _ _ => Except.ok "привет")
        1 5 none "hi" initState
      = ⟨initState, some "Ошибка: LLM_API_KEY (или OPENAI_API_KEY) не задан в Railway Variables.",
         0⟩ :=
  ⟨(config_error_behaviour (Config.mk none 7 (some "k")) (fun _ _ => Except.ok "привет")
      1 5 none "hi" initState rfl).1 rfl,
   (config_error_behaviour (Config.mk (some "tok") 7 none) (fun _ _ => Except.ok "привет")
      1 5 none "hi" initState rfl).2.1 (by decide),
   (config_error_behaviour (Config.mk (some "tok") 7 none) (fun _ _ => Except.ok "привет")
      1 5 none "hi" initState rfl).2.2 (by decide) rfl⟩

/-- Claim C2 counterexample: messages from two distinct users (1 and 2) in the
same chat 5 and same (absent) sub-thread are stored in one and the same
ring buffer keyed (5, 0) — not in two distinct buffers — because
`thread_key` is only (chat, thread) and omits the user. -/
theorem conversation_key_ignores_user_cex :
    (handle_text (Config.mk (some "t") 7 (some "k")) (fun _ _ => Except.ok "привет")
        2 5 none "два"
        (handle_text (Config.mk (some "t") 7 (some "k")) (fun _ _ => Except.ok "привет")
          1 5 none "раз" initState).state).state.thread_memory (5, 0)
      = [Msg.mk "user" "раз", Msg.mk "assistant" "привет",
         Msg.mk "user" "два", Msg.mk "assistant" "привет"] := by decide

/-- Claim C2 amended: a session is identified by (chat id, sub-thread id or the 0
sentinel) only — the key omits the originating user — so two successful
messages by two distinct users in the same chat and sub-thread are
appended, in arrival order, to one and the same ring buffer. -/
theorem sessions_shared_across_users (cfg : Config)
    (llm : List Msg → Nat → Except String String)
    (uid1 uid2 chat_id : Int) (tid : Option Int) (raw1 raw2 : String) (st : BotState)
    (a1 a2 : String) (n1 n2 : Nat)
    (h1 : (pyStrip raw1).data.isEmpty = false) (h1b : (pyStrip raw2).data.isEmpty = false)
    (h2 : cfg.BOT_TOKEN.isNone = false) (h3 : cfg.LLM_API_KEY.isNone = false)
    (h4 : cfg.OWNER_ID ≠ 0)
    (hrun1 : call_llm_run llm (messages_for cfg uid1 chat_id tid (pyStrip raw1) st) 2
      = (Except.ok a1, n1))
    (hrun2 : call_llm_run llm (messages_for cfg uid2 chat_id tid (pyStrip raw2)
        (handle_text cfg llm uid1 chat_id tid raw1 st).state) 2 = (Except.ok a2, n2)) :
    (handle_text cfg llm uid2 chat_id tid raw2
        (handle_text cfg llm uid1 chat_id tid raw1 st).state).state.thread_memory
      (thread_key chat_id tid)
      = dqAppend 20 (dqAppend 20 (dqAppend 20 (dqAppend 20
          (st.thread_memory (thread_key chat_id tid))
          (Msg.mk "user" (pyStrip raw1))) (Msg.mk "assistant" a1))
          (Msg.mk "user" (pyStrip raw2))) (Msg.mk "assistant" a2) := by
  rw [handle_text_ok_case cfg llm uid2 chat_id tid raw2 _ a2 n2 h1b h2 h3 h4 hrun2]
  rw [handle_text_ok_case cfg llm uid1 chat_id tid raw1 st a1 n1 h1 h2 h3 h4 hrun1]
  simp

/-- Witness for C2's amended theorem: the concrete two-user run of the
counterexample, started from the empty state. -/
theorem sessions_shared_across_users_witness :
    (handle_text (Config.mk (some "t") 7 (some "k")) (fun _ _ => Except.ok "привет")
        2 5 none "два"
        (handle_text (Config.mk (some "t") 7 (some "k")) (fun _ _ => Except.ok "привет")
          1 5 none "раз" initState).state).state.thread_memory (thread_key 5 none)
      = dqAppend 20 (dqAppend 20 (dqAppend 20 (dqAppend 20
          (initState.thread_memory (thread_key 5 none))
          (Msg.mk "user" (pyStrip "раз"))) (Msg.mk "assistant" "привет"))
          (Msg.mk "user" (pyStrip "два"))) (Msg.mk "assistant" "привет") :=
  sessions_shared_across_users (Config.mk (some "t") 7 (some "k"))
    (fun _ _ => Except.ok "привет") 1 2 5 none "раз" "два" initState
    "привет" "привет" 1 1 rfl rfl rfl rfl (by decide) rfl rfl

/-! ### Provenance of the style corpus (C7) -/

theorem style_samples_after_mem {ownerId uid : Int} {text s : String} {samples : List String}
    (h : s ∈ style_samples_after ownerId uid text samples) :
    s ∈ samples ∨ (uid = ownerId ∧ s = text) := by
  unfold style_samples_after at h
  by_cases h1 : uid = ownerId
  · rw [if_pos h1] at h
    by_cases h2 : startsWithSlash text = true
    · rw [if_pos h2] at h
      exact Or.inl h
    · rw [if_neg h2] at h
      rcases dqAppend_mem h with h3 | h3
      · exact Or.inl h3
      · exact Or.inr ⟨h1, h3⟩
  · rw [if_neg h1] at h
    exact Or.inl h

theorem handle_text_samples (cfg : Config) (llm : List Msg → Nat → Except String String)
    (uid chat_id : Int) (tid : Option Int) (raw : String) (st : BotState) :
    (handle_text cfg llm uid chat_id tid raw st).state.owner_style_samples
        = st.owner_style_samples
    ∨ (handle_text cfg llm uid chat_id tid raw st).state.owner_style_samples
        = style_samples_after cfg.OWNER_ID uid (pyStrip raw) st.owner_style_samples := by
  by_cases h1 : (pyStrip raw).data.isEmpty
  · left; rw [handle_text_early_state cfg llm uid chat_id tid raw st (Or.inl h1)]
  · rw [Bool.not_eq_true] at h1
    by_cases h2 : cfg.BOT_TOKEN.isNone
    · left; rw [handle_text_early_state cfg llm uid chat_id tid raw st (Or.inr (Or.inl h2))]
    · rw [Bool.not_eq_true] at h2
      by_cases h3 : cfg.LLM_API_KEY.isNone
      · left
        rw [handle_text_early_state cfg llm uid chat_id tid raw st
          (Or.inr (Or.inr (Or.inl h3)))]
      · rw [Bool.not_eq_true] at h3
        by_cases h4 : cfg.OWNER_ID = 0
        · left
          rw [handle_text_early_state cfg llm uid chat_id tid raw st
            (Or.inr (Or.inr (Or.inr h4)))]
        · right
          rcases hrun : call_llm_run llm (messages_for cfg uid chat_id tid (pyStrip raw) st) 2
            with ⟨res, n⟩
          cases res with
          | error e =>
              rw [handle_text_error_case cfg llm uid chat_id tid raw st e n h1 h2 h3 h4 hrun]
          | ok a =>
              rw [handle_text_ok_case cfg llm uid chat_id tid raw st a n h1 h2 h3 h4 hrun]

theorem bot_step_samples (cfg : Config) (st : BotState) (ev : BotEvent) (s : String)
    (h : s ∈ (bot_step cfg st ev).owner_style_samples) :
    s ∈ st.owner_style_samples
    ∨ ∃ chat_id tid raw llm, ev = BotEvent.textMsg cfg.OWNER_ID chat_id tid raw llm
        ∧ s = pyStrip raw := by
  cases ev with
  | textMsg uid chat_id tid raw llm =>
      simp only [bot_step] at h
      rcases handle_text_samples cfg llm uid chat_id tid raw st with hs | hs
      · rw [hs] at h
        exact Or.inl h
      · rw [hs] at h
        rcases style_samples_after_mem h with h2 | h2
        · exact Or.inl h2
        · obtain ⟨huid, hs2⟩ := h2
          exact Or.inr ⟨chat_id, tid, raw, llm, by rw [huid], hs2⟩
  | styleResetCmd uid =>
      simp only [bot_step] at h
      unfold style_reset_run at h
      by_cases hc : cfg.OWNER_ID ≠ 0 ∧ uid ≠ cfg.OWNER_ID
      · rw [if_pos hc] at h
        exact Or.inl h
      · rw [if_neg hc] at h
        simp at h
  | resetCmd chat_id tid =>
      simp only [bot_step] at h
      exact Or.inl h

theorem foldl_samples_origin (cfg : Config) :
    ∀ (events : List BotEvent) (st : BotState) (s : String),
      s ∈ (events.foldl (bot_step cfg) st).owner_style_samples →
      s ∈ st.owner_style_samples
      ∨ ∃ chat_id tid raw llm,
          BotEvent.textMsg cfg.OWNER_ID chat_id tid raw llm ∈ events ∧ s = pyStrip raw := by
  intro events
  induction events with
  | nil =>
      intro st s h
      exact Or.inl h
  | cons e evs ih =>
      intro st s h
      rw [List.foldl_cons] at h
      rcases ih (bot_step cfg st e) s h with h1 | h1
      · rcases bot_step_samples cfg st e s h1 with h2 | h2
        · exact Or.inl h2
        · obtain ⟨c, t, r, l, he, hs⟩ := h2
          refine Or.inr ⟨c, t, r, l, ?_, hs⟩
          rw [← he]
          exact List.mem_cons_self e evs
      · obtain ⟨c, t, r, l, hm, hs⟩ := h1
        exact Or.inr ⟨c, t, r, l, List.mem_cons_of_mem e hm, hs⟩

/-- Claim C7: text authored by any identity other than the configured owner is
never recorded into the owner's style corpus: after an arbitrary sequence
of messages and commands from process start, every string in the corpus
is the stripped text of some message event authored by `OWNER_ID` — and
`build_style_system_prompt`, hence the rendered style prompt, is a
function of that corpus alone. -/
theorem style_corpus_owner_only (cfg : Config) (events : List BotEvent) (s : String)
    (hs : s ∈ (run_bot cfg events).owner_style_samples) :
    ∃ chat_id tid raw llm,
      BotEvent.textMsg cfg.OWNER_ID chat_id tid raw llm ∈ events ∧ s = pyStrip raw := by
  rcases foldl_samples_origin cfg events initState s hs with h | h
  · simp [initState] at h
  · exact h

/-- Witness for C7: after one owner message the corpus holds its text, and
the theorem traces it back to an owner-authored event. -/
theorem style_corpus_owner_only_witness :
    ("привет" ∈ (run_bot (Config.mk (some "t") 7 (some "k"))
        [BotEvent.textMsg 7 1 none "привет" (fun _ _ => Except.ok "ok")]).owner_style_samples)
    ∧ ∃ chat_id tid raw llm,
        BotEvent.textMsg (Config.mk (some "t") 7 (some "k")).OWNER_ID chat_id tid raw llm
          ∈ [BotEvent.textMsg 7 1 none "привет" (fun _ _ => Except.ok "ok")]
        ∧ "привет" = pyStrip raw :=
  ⟨by decide,
   style_corpus_owner_only (Config.mk (some "t") 7 (some "k"))
     [BotEvent.textMsg 7 1 none "привет" (fun _ _ => Except.ok "ok")] "привет" (by decide)⟩

/-- Claim C8 counterexample: one 4100-character style sample makes the rendered
style prompt longer than 4000 characters (the only length constant in the
program, used for replies only), and `messages_for` places that prompt in
the outbound payload untruncated — no length truncation of the
persona/style prefix exists. -/
theorem style_prompt_unbounded_cex :
    4000 < (build_style_system_prompt [String.mk (List.replicate 4100 'a')]).length
    ∧ (messages_for (Config.mk (some "t") 7 (some "k")) 1 5 none "hi"
        (BotState.mk (fun _ => []) [String.mk (List.replicate 4100 'a')])).head?
      = some (Msg.mk "system"
          (build_style_system_prompt [String.mk (List.replicate 4100 'a')])) := by
  have hlong : (String.mk (List.replicate 4100 'a')).length = 4100 := by
    show (List.replicate 4100 'a').length = 4100
    rw [List.length_replicate]
  constructor
  · have hne : ([String.mk (List.replicate 4100 'a')] : List String).isEmpty = false := rfl
    unfold build_style_system_prompt
    rw [hne]
    simp only [Bool.false_eq_true, if_false]
    have h2 : String.intercalate "\n"
        ((takeLast 25 [String.mk (List.replicate 4100 'a')]).map (fun t => "- " ++ t))
        = "- " ++ String.mk (List.replicate 4100 'a') := rfl
    rw [h2, String.length_append, String.length_append, String.length_append, hlong]
    omega
  · rfl

/-- Claim C8 amended: the program bounds only the number of style examples in the
prompt — `build_style_system_prompt` depends solely on the 25 most recent
samples — and applies no character-length truncation to the prompt; the
4000-character cap is applied by `safe_reply` to the outbound reply text,
not to the request payload. -/
theorem style_prompt_last25_and_reply_cap (samples : List String) (t : String) :
    build_style_system_prompt samples = build_style_system_prompt (takeLast 25 samples)
    ∧ (safe_reply_text t).length ≤ 4000 := by
  constructor
  · by_cases h : samples.isEmpty = true
    · have h0 : samples = [] := by
        cases samples with
        | nil => rfl
        | cons a l => simp at h
      rw [h0]
      rfl
    · have hlen : 1 ≤ samples.length := by
        cases samples with
        | nil => simp at h
        | cons a l => simp
      have h2 : (takeLast 25 samples).length = min 25 samples.length :=
        takeLast_length 25 samples
      have h3 : (takeLast 25 samples).isEmpty = false := by
        cases hc : takeLast 25 samples with
        | nil =>
            have hz : (takeLast 25 samples).length = 0 := by rw [hc]; rfl
            omega
        | cons a l => rfl
      have h4 : takeLast 25 (takeLast 25 samples) = takeLast 25 samples := by
        apply takeLast_of_le
        omega
      rw [Bool.not_eq_true] at h
      unfold build_style_system_prompt
      rw [h, h3, h4]
  · show (t.data.take 4000).length ≤ 4000
    rw [List.length_take]
    exact Nat.min_le_left _ _

end TgBot
